import Mathlib

/-!
Shallow embedding of `base_local_planner`'s `TrajectoryPlannerROS`
(src/base_local_planner/src/trajectory_planner_ros.cpp) and proofs about it.

Modelling conventions:
* Poses, velocities and commands are triples of rationals; the C++ `double`
  arithmetic on the code paths studied here is exact field arithmetic, so ℚ
  represents it faithfully on every branch decision we reason about.
* A velocity stored as a `tf::Pose` (origin = linear part, yaw = angular part)
  is represented directly by its `(x, y, th)` triple; `tf::getYaw` applied to
  `tf::createQuaternionFromYaw th` is the identity on the stored yaw.
* External collaborators (tf lookups, `angles::shortest_angular_distance`,
  `sqrt`, `TrajectoryPlanner::checkTrajectory`, `findBestPath`) are not part of
  this source file; they enter the embedding as explicit parameters of the
  cycle environment, so every theorem quantifies over their outcomes.
-/

namespace Nav

/-- A 2-D pose `(x, y, yaw)`; also used for velocity triples `(vx, vy, vth)`. -/
structure PoseQ where
  x : ℚ
  y : ℚ
  th : ℚ
deriving DecidableEq, Repr

/-- A `geometry_msgs::Twist` restricted to the fields the planner writes:
`linear.x`, `linear.y`, `angular.z`. -/
structure Twist where
  x : ℚ
  y : ℚ
  z : ℚ
deriving DecidableEq, Repr

/-- Persistent controller state of `TrajectoryPlannerROS`: the `initialized_`
and `rotating_to_goal_` flags, the cached odometry velocities `base_odom_`,
and the retained plan `global_plan_`. -/
structure Ctrl where
  initialized : Bool
  rotating_to_goal : Bool
  odomVx : ℚ
  odomVy : ℚ
  odomVth : ℚ
  plan : List PoseQ
deriving DecidableEq, Repr

/-- Configuration parameters read in `initialize` (lines 89-137). -/
structure Params where
  prune_plan : Bool
  yaw_goal_tolerance : ℚ
  xy_goal_tolerance : ℚ
  acc_lim_x : ℚ
  acc_lim_y : ℚ
  acc_lim_theta : ℚ
  max_vel_th : ℚ
  min_vel_th : ℚ
  min_in_place_vel_th : ℚ
  rot_stopped_velocity : ℚ
  trans_stopped_velocity : ℚ
  sizeX : ℚ
  sizeY : ℚ
  resolution : ℚ
deriving DecidableEq, Repr

/-- Type of the external `TrajectoryPlanner::checkTrajectory` oracle: arguments
are `(x, y, theta, vx, vy, vtheta, vx_samp, vy_samp, vtheta_samp)`. -/
def CheckFn : Type := ℚ → ℚ → ℚ → ℚ → ℚ → ℚ → ℚ → ℚ → ℚ → Bool

/-- External inputs of one `computeVelocityCommands` cycle: robot pose from the
costmap (`getRobotPose`), tf lookup success, the plan-frame-to-global-frame
transform `T`, the robot pose expressed in the plan frame, the external math
functions (`sqrt`, `angles::shortest_angular_distance`), the trajectory check
oracle, and the `findBestPath` outcome (`drive_cmds` velocities and best cost). -/
structure Env where
  robotPose : Option PoseQ
  tfOk : Bool
  T : PoseQ → PoseQ
  robotPlanX : ℚ
  robotPlanY : ℚ
  sad : ℚ → ℚ → ℚ
  sqrtFn : ℚ → ℚ
  check : CheckFn
  driveCmds : PoseQ
  bestCost : ℚ

/-- Modelled from the spec: the `sign` helper used by the planner
(`sign(v) · max(0, |v| − acc · 0.1)` in §4.F); the header defining it is not in
this repository. Its value at 0 never matters below because it is always
multiplied by a factor that vanishes there. -/
def qsign (v : ℚ) : ℚ := if v < 0 then -1 else 1

/-- Squared distance from the point `(rx, ry)` to a plan pose, as computed by
the differences `x_diff`, `y_diff` in the source (lines 424-426, 633-635). -/
def sqDistTo (rx ry : ℚ) (p : PoseQ) : ℚ :=
  (rx - p.x) * (rx - p.x) + (ry - p.y) * (ry - p.y)

/-- `TrajectoryPlannerROS::distance` (lines 219-221), with the external `sqrt`
passed in. -/
def distance (sqrtFn : ℚ → ℚ) (x1 y1 x2 y2 : ℚ) : ℚ :=
  sqrtFn ((x2 - x1) * (x2 - x1) + (y2 - y1) * (y2 - y1))

/-- `TrajectoryPlannerROS::goalPositionReached` (lines 223-226). -/
def goalPositionReached (P : Params) (sqrtFn : ℚ → ℚ) (pose : PoseQ) (gx gy : ℚ) : Bool :=
  decide (|distance sqrtFn pose.x pose.y gx gy| ≤ P.xy_goal_tolerance)

/-- `TrajectoryPlannerROS::goalOrientationReached` (lines 228-231), with
`angles::shortest_angular_distance` passed in as `sad`. -/
def goalOrientationReached (P : Params) (sad : ℚ → ℚ → ℚ) (pose : PoseQ) (goal_th : ℚ) : Bool :=
  decide (|sad pose.th goal_th| ≤ P.yaw_goal_tolerance)

/-- `TrajectoryPlannerROS::stopped` (lines 212-217), reading the cached
odometry velocities. (The `scoped_lock(odom_lock_)` statement there declares a
fresh default-constructed local named `odom_lock_` and does not lock the member
mutex; the values read are the cached fields either way.) -/
def stopped (P : Params) (s : Ctrl) : Bool :=
  decide (|s.odomVth| ≤ P.rot_stopped_velocity)
    && decide (|s.odomVx| ≤ P.trans_stopped_velocity)
    && decide (|s.odomVy| ≤ P.trans_stopped_velocity)

/-- `TrajectoryPlannerROS::prunePlan` (lines 626-643): while the transformed
plan is nonempty and its head is at squared distance ≥ 1 from the robot, erase
the head of both the transformed plan and the retained global plan. Erasing
from the retained plan is modelled by `List.tail`, which is what
`global_plan.erase(global_it)` does under the `ROS_ASSERT` that the retained
plan is at least as long. -/
def prunePlan (rx ry : ℚ) : List PoseQ → List PoseQ → List PoseQ × List PoseQ
  | [], global => ([], global)
  | w :: rest, global =>
    if sqDistTo rx ry w < 1 then (w :: rest, global)
    else prunePlan rx ry rest global.tail

/-- The distance window used by `transformGlobalPlan` (line 416):
`max(size_cells_x · resolution / 2, size_cells_y · resolution / 2)`. -/
def distThresholdOf (P : Params) : ℚ :=
  max (P.sizeX * P.resolution / 2) (P.sizeY * P.resolution / 2)

/-- The squared window threshold `sq_dist_threshold` (line 419). -/
def sqThreshOf (P : Params) : ℚ := distThresholdOf P * distThresholdOf P

/-- The `DBL_MAX` initial value of `sq_dist` (line 420), exactly
`(2^53 − 1) · 2^971`. -/
def dblMax : ℚ := (2 ^ 53 - 1) * 2 ^ 971

/-- First loop of `transformGlobalPlan` (lines 423-428): advance while the
running `sq_dist` (distance of the previously examined point, initially
`DBL_MAX`) exceeds the threshold; each iteration consumes one plan point and
records its squared distance. Returns the final `sq_dist` and the unconsumed
rest of the plan. -/
def tgpSkip (rx ry thresh : ℚ) : ℚ → List PoseQ → ℚ × List PoseQ
  | sq, [] => (sq, [])
  | sq, p :: rest =>
    if thresh < sq then tgpSkip rx ry thresh (sqDistTo rx ry p) rest
    else (sq, p :: rest)

/-- Second loop of `transformGlobalPlan` (lines 434-449): while the running
`sq_dist` (of the previously examined point) is strictly below the threshold,
record the current point's squared distance, transform the point and append it
to the output. -/
def tgpTake (rx ry thresh : ℚ) (T : PoseQ → PoseQ) : ℚ → List PoseQ → List PoseQ
  | _, [] => []
  | sq, p :: rest =>
    if sq < thresh then T p :: tgpTake rx ry thresh T (sqDistTo rx ry p) rest
    else []

/-- Result of `transformGlobalPlan`: the returned success flag, the produced
`transformed_plan`, and whether the function performed an out-of-bounds access
on the retained plan. -/
structure TGPResult where
  ok : Bool
  plan : List PoseQ
  oobAccess : Bool
deriving DecidableEq, Repr

/-- `TrajectoryPlannerROS::transformGlobalPlan` (lines 391-468). Line 392
evaluates `global_plan_[0]` before the zero-length check at line 397, so on an
empty retained plan an out-of-bounds `std::vector::operator[]` access happens;
the `oobAccess` field records this. The zero-length check itself
(`if (!global_plan_.size() > 0)`) parses as `(!size) > 0` and is therefore
true exactly on the empty plan. tf lookup / pose-transform failures (the three
catch blocks) are collapsed into `tfOk = false`. -/
def transformGlobalPlan (P : Params) (e : Env) (global_plan : List PoseQ) : TGPResult :=
  let oob := global_plan.isEmpty
  if global_plan.isEmpty then ⟨false, [], oob⟩
  else if e.tfOk then
    let sr := tgpSkip e.robotPlanX e.robotPlanY (sqThreshOf P) dblMax global_plan
    ⟨true, tgpTake e.robotPlanX e.robotPlanY (sqThreshOf P) e.T sr.1 sr.2, oob⟩
  else ⟨false, [], oob⟩

/-- Result of a command-producing call: the returned flag and the content of
the caller's `cmd_vel` after the call. -/
structure CmdResult where
  ok : Bool
  cmd : Twist
deriving DecidableEq, Repr

/-- `TrajectoryPlannerROS::stopWithAccLimits` (lines 233-260): per-axis
deceleration candidate `sign(v) · max(0, |v| − acc · 0.1)`, validated through
the `checkTrajectory` oracle; on failure the command is zeroed. -/
def stopWithAccLimits (P : Params) (check : CheckFn) (global_pose robot_vel : PoseQ) :
    CmdResult :=
  let vx := qsign robot_vel.x * max 0 (|robot_vel.x| - P.acc_lim_x * (1 / 10))
  let vy := qsign robot_vel.y * max 0 (|robot_vel.y| - P.acc_lim_y * (1 / 10))
  let vel_yaw := robot_vel.th
  let vth := qsign vel_yaw * max 0 (|vel_yaw| - P.acc_lim_theta * (1 / 10))
  let yaw := global_pose.th
  if check global_pose.x global_pose.y yaw robot_vel.x robot_vel.y vel_yaw vx vy vth then
    ⟨true, ⟨vx, vy, vth⟩⟩
  else
    ⟨false, ⟨0, 0, 0⟩⟩

/-- `TrajectoryPlannerROS::rotateToGoal` (lines 262-298): the in-place rotation
sample is `ang_diff` clamped into `[min_in_place_vel_th, max_vel_th]` on the
positive side and `[min_vel_th, −min_in_place_vel_th]` on the other, then its
magnitude is clamped into the acceleration window around `|vel_yaw|`, then
capped by the stopping speed `sqrt(2 · acc_lim_theta · |ang_diff|)`; the linear
components are zero, and the command is validated by a zero-translation
trajectory check. -/
def rotateToGoal (P : Params) (sqrtFn : ℚ → ℚ) (sad : ℚ → ℚ → ℚ) (check : CheckFn)
    (global_pose robot_vel : PoseQ) (goal_th : ℚ) : CmdResult :=
  let yaw := global_pose.th
  let vel_yaw := robot_vel.th
  let ang_diff := sad yaw goal_th
  let v0 :=
    if ang_diff > 0 then min P.max_vel_th (max P.min_in_place_vel_th ang_diff)
    else max P.min_vel_th (min (-1 * P.min_in_place_vel_th) ang_diff)
  let max_acc_vel := |vel_yaw| + P.acc_lim_theta * (1 / 10)
  let min_acc_vel := |vel_yaw| - P.acc_lim_theta * (1 / 10)
  let v1 := qsign v0 * min (max |v0| min_acc_vel) max_acc_vel
  let max_speed_to_stop := sqrtFn (2 * P.acc_lim_theta * |ang_diff|)
  let v2 := qsign v1 * min max_speed_to_stop |v1|
  if check global_pose.x global_pose.y yaw robot_vel.x robot_vel.y vel_yaw 0 0 v2 then
    ⟨true, ⟨0, 0, v2⟩⟩
  else
    ⟨false, ⟨0, 0, 0⟩⟩

/-- Result of one `computeVelocityCommands` cycle: returned flag, content of
the caller's `cmd_vel` afterwards, post-cycle controller state, and whether an
out-of-bounds access on the retained plan happened during the cycle. -/
structure CycleResult where
  ok : Bool
  cmd : Twist
  state : Ctrl
  oobAccess : Bool
deriving DecidableEq, Repr

/-- Lines 526-624 of `computeVelocityCommands`, once the cycle has a robot
pose, a nonempty transformed plan with last pose `goal_point`, and the
(possibly pruned) state `s`. Covers the goal-position branch (stop / rotate /
done, lines 537-579) and the trajectory-scoring branch (lines 581-623), where
`cmd_vel` receives the `findBestPath` drive commands before the negative-cost
check. -/
def cvcAfterGoalCheck (P : Params) (e : Env) (s : Ctrl) (global_pose goal_point : PoseQ)
    (ob : Bool) : CycleResult :=
  let robot_vel : PoseQ := ⟨s.odomVx, s.odomVy, s.odomVth⟩
  let goal_th := goal_point.th
  if goalPositionReached P e.sqrtFn global_pose goal_point.x goal_point.y then
    if goalOrientationReached P e.sad global_pose goal_th then
      ⟨true, ⟨0, 0, 0⟩, { s with rotating_to_goal := false }, ob⟩
    else
      if !s.rotating_to_goal && !stopped P s then
        let r := stopWithAccLimits P e.check global_pose robot_vel
        if r.ok then ⟨true, r.cmd, s, ob⟩ else ⟨false, r.cmd, s, ob⟩
      else
        let s2 := { s with rotating_to_goal := true }
        let r := rotateToGoal P e.sqrtFn e.sad e.check global_pose robot_vel goal_th
        if r.ok then ⟨true, r.cmd, s2, ob⟩ else ⟨false, r.cmd, s2, ob⟩
  else
    let cmd : Twist := ⟨e.driveCmds.x, e.driveCmds.y, e.driveCmds.th⟩
    if e.bestCost < 0 then ⟨false, cmd, s, ob⟩ else ⟨true, cmd, s, ob⟩

/-- `TrajectoryPlannerROS::computeVelocityCommands` (lines 470-624). The
caller's incoming `cmd_vel` content is `cmd0`; paths that return before any
write to `cmd_vel` leave it at `cmd0`. The odometry velocities are copied from
the cached `base_odom_` (lines 502-506) and packed into `robot_vel`; pruning
(lines 489-490) rewrites the retained plan in place before the emptiness check
on the transformed plan (line 523). -/
def computeVelocityCommands (P : Params) (e : Env) (s : Ctrl) (cmd0 : Twist) : CycleResult :=
  if s.initialized then
    match e.robotPose with
    | none => ⟨false, cmd0, s, false⟩
    | some global_pose =>
      let t := transformGlobalPlan P e s.plan
      if t.ok then
        let pr := prunePlan global_pose.x global_pose.y t.plan s.plan
        let transformed_plan := if P.prune_plan then pr.1 else t.plan
        let s1 := if P.prune_plan then { s with plan := pr.2 } else s
        match transformed_plan.getLast? with
        | none => ⟨false, cmd0, s1, t.oobAccess⟩
        | some goal_point => cvcAfterGoalCheck P e s1 global_pose goal_point t.oobAccess
      else ⟨false, cmd0, s, t.oobAccess⟩
  else ⟨false, cmd0, s, false⟩

/-- Observation made by a cycle when it reaches the goal-position check (line
537): the robot pose, the last transformed-plan pose, and the state after
in-place pruning. `none` when the cycle fails before that point. -/
def cycleMid (P : Params) (e : Env) (s : Ctrl) : Option (PoseQ × PoseQ × Ctrl) :=
  if s.initialized then
    match e.robotPose with
    | none => none
    | some global_pose =>
      let t := transformGlobalPlan P e s.plan
      if t.ok then
        let pr := prunePlan global_pose.x global_pose.y t.plan s.plan
        let transformed_plan := if P.prune_plan then pr.1 else t.plan
        let s1 := if P.prune_plan then { s with plan := pr.2 } else s
        match transformed_plan.getLast? with
        | none => none
        | some goal_point => some (global_pose, goal_point, s1)
      else none
  else none

/-- External inputs of `isGoalReached`: tf success and transform `Tg` for the
goal pose (lines 326-334), robot pose lookup, and the external math
functions. -/
structure GoalEnv where
  tfOk : Bool
  Tg : PoseQ → PoseQ
  robotPose : Option PoseQ
  sqrtFn : ℚ → ℚ
  sad : ℚ → ℚ → ℚ

/-- `TrajectoryPlannerROS::isGoalReached` (lines 310-376): false when not
initialized, on an empty plan, on tf failure, or when the robot pose is
unavailable; otherwise position reached, then orientation reached, then
stopped, conjunctively. (Line 316 takes a reference to `global_plan_.back()`
before the zero-length check but only dereferences it afterwards.) -/
def isGoalReached (P : Params) (e : GoalEnv) (s : Ctrl) : Bool :=
  if s.initialized then
    match s.plan.getLast? with
    | none => false
    | some plan_goal_pose =>
      if e.tfOk then
        let goal_pose := e.Tg plan_goal_pose
        match e.robotPose with
        | none => false
        | some global_pose =>
          goalPositionReached P e.sqrtFn global_pose goal_pose.x goal_pose.y
            && goalOrientationReached P e.sad global_pose goal_pose.th
            && stopped P s
      else false
  else false

/-- Events at the shared odometry record `base_odom_` and its mutex
`odom_lock_`, in program order within one function body. -/
inductive OdomEv
  | lockAcquire
  | lockRelease
  | accessOdom
deriving DecidableEq, Repr

/-- Event trace of `odomCallback` (lines 300-308). The statement
`boost::recursive_mutex::scoped_lock(odom_lock_);` at line 302 is a
declaration: it declares a new local variable named `odom_lock_` of type
`scoped_lock` and default-constructs it, managing no mutex, so the member
mutex is never acquired. The three writes to the velocity fields follow. -/
def odomCallbackTrace : List OdomEv := [.accessOdom, .accessOdom, .accessOdom]

/-- Event trace of `stopped` (lines 212-217): the `scoped_lock(odom_lock_)`
statement at line 213 is the same no-op declaration, followed by reads of the
three velocity fields. -/
def stoppedTrace : List OdomEv := [.accessOdom, .accessOdom, .accessOdom]

/-- Event trace of the odometry copy in `computeVelocityCommands`
(lines 502-506): here the mutex is locked and unlocked explicitly around the
three field reads. -/
def cvcOdomCopyTrace : List OdomEv :=
  [.lockAcquire, .accessOdom, .accessOdom, .accessOdom, .lockRelease]

/-- Event trace of the odometry copy in the goal branch of
`computeVelocityCommands` (lines 553-557): the block again uses the no-op
`scoped_lock(odom_lock_)` declaration, then copies `base_odom_`. -/
def cvcGoalOdomCopyTrace : List OdomEv := [.accessOdom]

/-- Whether every access in a trace happens while the lock depth is
positive. -/
def accessesLocked : ℕ → List OdomEv → Bool
  | _, [] => true
  | d, OdomEv.lockAcquire :: t => accessesLocked (d + 1) t
  | d, OdomEv.lockRelease :: t => accessesLocked (d - 1) t
  | d, OdomEv.accessOdom :: t => decide (0 < d) && accessesLocked d t

theorem prunePlan_eq_drop (rx ry : ℚ) :
    ∀ plan global : List PoseQ,
      prunePlan rx ry plan global =
        (plan.drop (plan.takeWhile fun w => decide (1 ≤ sqDistTo rx ry w)).length,
         global.drop (plan.takeWhile fun w => decide (1 ≤ sqDistTo rx ry w)).length) := by
  intro plan
  induction plan with
  | nil => intro global; simp [prunePlan]
  | cons w rest ih =>
    intro global
    by_cases hw : sqDistTo rx ry w < 1
    · have hnot : ¬ (1 ≤ sqDistTo rx ry w) := not_le.mpr hw
      simp [prunePlan, hw, List.takeWhile_cons, hnot]
    · have hd : (decide (1 ≤ sqDistTo rx ry w)) = true := decide_eq_true (not_lt.mp hw)
      have htail : ∀ (l : List PoseQ) (n : ℕ), l.drop (n + 1) = l.tail.drop n := by
        intro l n; cases l <;> simp
      rw [show prunePlan rx ry (w :: rest) global = prunePlan rx ry rest global.tail from by
            simp [prunePlan, hw],
        ih global.tail]
      have ht : List.takeWhile (fun v => decide (1 ≤ sqDistTo rx ry v)) (w :: rest) =
          w :: List.takeWhile (fun v => decide (1 ≤ sqDistTo rx ry v)) rest :=
        List.takeWhile_cons_of_pos hd
      rw [ht]
      simp only [List.length_cons, htail, List.tail_cons]

/-- Claim C3: with the retained plan at least as long as the transformed plan,
`prunePlan` drops from both plans, in lockstep, exactly the maximal prefix of
transformed-plan points at squared distance ≥ 1 m² from the robot, stopping at
the first point with squared distance < 1; both results are contiguous
suffixes of the original plans. -/
theorem prunePlan_lockstep_suffix (rx ry : ℚ) (plan global : List PoseQ)
    (_h : plan.length ≤ global.length) :
    prunePlan rx ry plan global =
      (plan.drop (plan.takeWhile fun w => decide (1 ≤ sqDistTo rx ry w)).length,
       global.drop (plan.takeWhile fun w => decide (1 ≤ sqDistTo rx ry w)).length)
    ∧ (prunePlan rx ry plan global).1 <:+ plan
    ∧ (prunePlan rx ry plan global).2 <:+ global := by
  refine ⟨prunePlan_eq_drop rx ry plan global, ?_, ?_⟩
  · rw [prunePlan_eq_drop rx ry plan global]
    exact List.drop_suffix _ _
  · rw [prunePlan_eq_drop rx ry plan global]
    exact List.drop_suffix _ _

/-- Witness for C3 at a concrete input: robot at the origin, transformed plan
with two far points then a close one, retained plan one entry longer. -/
theorem prunePlan_lockstep_suffix_wit :
    prunePlan 0 0 [⟨3, 0, 0⟩, ⟨2, 0, 0⟩, ⟨0, 0, 0⟩, ⟨5, 0, 0⟩]
        [⟨30, 0, 0⟩, ⟨20, 0, 0⟩, ⟨10, 0, 0⟩, ⟨50, 0, 0⟩, ⟨60, 0, 0⟩] =
      ([⟨0, 0, 0⟩, ⟨5, 0, 0⟩], [⟨10, 0, 0⟩, ⟨50, 0, 0⟩, ⟨60, 0, 0⟩])
    ∧ (prunePlan 0 0 [⟨3, 0, 0⟩, ⟨2, 0, 0⟩, ⟨0, 0, 0⟩, ⟨5, 0, 0⟩]
        [⟨30, 0, 0⟩, ⟨20, 0, 0⟩, ⟨10, 0, 0⟩, ⟨50, 0, 0⟩, ⟨60, 0, 0⟩]).1 <:+
        [⟨3, 0, 0⟩, ⟨2, 0, 0⟩, ⟨0, 0, 0⟩, ⟨5, 0, 0⟩] := by
  have h := prunePlan_lockstep_suffix 0 0
    [⟨3, 0, 0⟩, ⟨2, 0, 0⟩, ⟨0, 0, 0⟩, ⟨5, 0, 0⟩]
    [⟨30, 0, 0⟩, ⟨20, 0, 0⟩, ⟨10, 0, 0⟩, ⟨50, 0, 0⟩, ⟨60, 0, 0⟩] (by decide)
  refine ⟨?_, h.2.1⟩
  rw [h.1]
  norm_num [sqDistTo]

/-- Candidate deceleration command as the spec words it: on each axis
`sign(v) · max(0, |v| − acc · 0.1)`. -/
def stopCandidate (P : Params) (robot_vel : PoseQ) : Twist :=
  ⟨qsign robot_vel.x * max 0 (|robot_vel.x| - P.acc_lim_x * (1 / 10)),
   qsign robot_vel.y * max 0 (|robot_vel.y| - P.acc_lim_y * (1 / 10)),
   qsign robot_vel.th * max 0 (|robot_vel.th| - P.acc_lim_theta * (1 / 10))⟩

/-- Claim C6: `stopWithAccLimits` computes on each axis the candidate
`sign(v) · max(0, |v| − acc · 0.1)`; when the trajectory check accepts it the
candidate is emitted with success, otherwise the emitted command is exactly
zero on all three axes and the call reports failure. -/
theorem stopWithAccLimits_spec (P : Params) (check : CheckFn) (global_pose robot_vel : PoseQ) :
    stopWithAccLimits P check global_pose robot_vel =
      (if check global_pose.x global_pose.y global_pose.th
            robot_vel.x robot_vel.y robot_vel.th
            (stopCandidate P robot_vel).x (stopCandidate P robot_vel).y
            (stopCandidate P robot_vel).z then
        ⟨true, stopCandidate P robot_vel⟩
      else
        ⟨false, ⟨0, 0, 0⟩⟩) := by
  simp only [stopWithAccLimits, stopCandidate]

/-- Spec-side in-place rotation sample for `rotateToGoal`: the sign-preserving
clamp of `ang_diff` into `[min_in_place_vel_th, max_vel_th]`, then the clamp of
its magnitude into `[|vel_yaw| − acc·0.1, |vel_yaw| + acc·0.1]`, then the cap
of its magnitude by `sqrt(2 · acc · |ang_diff|)`. -/
def rotateSample (P : Params) (sqrtFn : ℚ → ℚ) (ang_diff vel_yaw : ℚ) : ℚ :=
  let clamped :=
    if ang_diff > 0 then min P.max_vel_th (max P.min_in_place_vel_th ang_diff)
    else max (-P.max_vel_th) (min (-P.min_in_place_vel_th) ang_diff)
  let accClamped :=
    qsign clamped *
      min (max |clamped| (|vel_yaw| - P.acc_lim_theta * (1 / 10)))
        (|vel_yaw| + P.acc_lim_theta * (1 / 10))
  qsign accClamped * min (sqrtFn (2 * P.acc_lim_theta * |ang_diff|)) |accClamped|

/-- Claim C7: with `min_vel_th = −max_vel_th` (as `initialize` sets it at lines
135-136), the command emitted by `rotateToGoal` is exactly the chained clamp
`rotateSample` of the angular difference: clamp to the in-place velocity
envelope with preserved sign, then clamp the magnitude to the acceleration
window around `|vel_yaw|`, then cap the magnitude by the stopping speed; the
linear components are zero, and when the zero-translation trajectory check
fails the angular command is zero and the call reports failure. -/
theorem rotateToGoal_spec (P : Params) (sqrtFn : ℚ → ℚ) (sad : ℚ → ℚ → ℚ) (check : CheckFn)
    (global_pose robot_vel : PoseQ) (goal_th : ℚ) (h : P.min_vel_th = -P.max_vel_th) :
    rotateToGoal P sqrtFn sad check global_pose robot_vel goal_th =
      (if check global_pose.x global_pose.y global_pose.th
            robot_vel.x robot_vel.y robot_vel.th 0 0
            (rotateSample P sqrtFn (sad global_pose.th goal_th) robot_vel.th) then
        ⟨true, ⟨0, 0, rotateSample P sqrtFn (sad global_pose.th goal_th) robot_vel.th⟩⟩
      else
        ⟨false, ⟨0, 0, 0⟩⟩) := by
  simp only [rotateToGoal, rotateSample, h, neg_one_mul]

/-- Witness for C7, the spec's scenario S2: `ang_diff = 1`, robot stopped,
`acc_lim_theta = 16/5`, `max_vel_th = 1`; the emitted rotation command is
`8/25` (the acceleration-window clamp of the envelope-clamped value 1) and the
call succeeds. -/
theorem rotateToGoal_spec_wit :
    rotateToGoal
        ⟨true, 1/20, 1/10, 5/2, 5/2, 16/5, 1, -1, 2/5, 1/100, 1/100, 200, 200, 1/20⟩
        (fun _ => 253/100) (fun a b => b - a) (fun _ _ _ _ _ _ _ _ _ => true)
        ⟨0, 0, 0⟩ ⟨0, 0, 0⟩ 1 =
      ⟨true, ⟨0, 0, 8/25⟩⟩ := by
  rw [rotateToGoal_spec
    ⟨true, 1/20, 1/10, 5/2, 5/2, 16/5, 1, -1, 2/5, 1/100, 1/100, 200, 200, 1/20⟩
    (fun _ => 253/100) (fun a b => b - a) (fun _ _ _ _ _ _ _ _ _ => true)
    ⟨0, 0, 0⟩ ⟨0, 0, 0⟩ 1 (by norm_num)]
  norm_num [rotateSample, qsign, min_def, max_def, abs_of_nonneg, abs_of_nonpos]

/-- Claim C9 (evidence for the code bug): of the four code sites touching the
shared odometry record, only the explicit `lock()`/`unlock()` pair around the
copy in `computeVelocityCommands` (lines 502-506) performs its accesses under
the mutex; the write in `odomCallback`, the reads in `stopped()`, and the copy
in the goal branch all access the record with no lock held, because their
`boost::recursive_mutex::scoped_lock(odom_lock_);` statements declare a
default-constructed local named `odom_lock_` instead of locking the member. -/
theorem odom_accesses_unlocked :
    accessesLocked 0 odomCallbackTrace = false
    ∧ accessesLocked 0 stoppedTrace = false
    ∧ accessesLocked 0 cvcGoalOdomCopyTrace = false
    ∧ accessesLocked 0 cvcOdomCopyTrace = true := by
  decide

/-- Claim C8: when the planner is initialized, the plan is nonempty with final
(transformed) pose `e.Tg pg`, the tf lookup succeeds and the robot pose is
available, `isGoalReached` returns true exactly when the robot is within the
xy goal tolerance of the plan's final pose, within the yaw tolerance of its
orientation, and stopped. -/
theorem isGoalReached_iff (P : Params) (e : GoalEnv) (s : Ctrl) (pg gp : PoseQ)
    (hinit : s.initialized = true) (hlast : s.plan.getLast? = some pg)
    (htf : e.tfOk = true) (hpose : e.robotPose = some gp) :
    isGoalReached P e s =
      (goalPositionReached P e.sqrtFn gp (e.Tg pg).x (e.Tg pg).y
        && goalOrientationReached P e.sad gp (e.Tg pg).th
        && stopped P s) := by
  simp only [isGoalReached, hinit, hlast, htf, hpose, if_true]

/-- Witness for C8: robot exactly at the single-point plan's goal with matching
yaw and zero cached velocities; `isGoalReached` returns true. -/
theorem isGoalReached_iff_wit :
    isGoalReached
        ⟨true, 1/20, 1/10, 5/2, 5/2, 16/5, 1, -1, 2/5, 1/100, 1/100, 200, 200, 1/20⟩
        ⟨true, id, some ⟨3, 4, 1/2⟩, fun _ => 0, fun a b => b - a⟩
        ⟨true, false, 0, 0, 0, [⟨3, 4, 1/2⟩]⟩ = true := by
  rw [isGoalReached_iff
    ⟨true, 1/20, 1/10, 5/2, 5/2, 16/5, 1, -1, 2/5, 1/100, 1/100, 200, 200, 1/20⟩
    ⟨true, id, some ⟨3, 4, 1/2⟩, fun _ => 0, fun a b => b - a⟩
    ⟨true, false, 0, 0, 0, [⟨3, 4, 1/2⟩]⟩ ⟨3, 4, 1/2⟩ ⟨3, 4, 1/2⟩ rfl rfl rfl rfl]
  norm_num [goalPositionReached, goalOrientationReached, stopped, distance]

theorem transformGlobalPlan_ok_oob (P : Params) (e : Env) (plan : List PoseQ)
    (h : (transformGlobalPlan P e plan).ok = true) :
    (transformGlobalPlan P e plan).oobAccess = false := by
  unfold transformGlobalPlan at h ⊢
  by_cases hne : plan.isEmpty <;> by_cases htf : e.tfOk = true <;> simp_all

theorem cvc_eq_afterGoalCheck (P : Params) (e : Env) (s : Ctrl) (cmd0 : Twist)
    (gp g : PoseQ) (s1 : Ctrl) (hobs : cycleMid P e s = some (gp, g, s1)) :
    computeVelocityCommands P e s cmd0 = cvcAfterGoalCheck P e s1 gp g false := by
  by_cases hinit : s.initialized = true
  · cases hpose : e.robotPose with
    | none => simp [cycleMid, hinit, hpose] at hobs
    | some global_pose =>
      by_cases htf : (transformGlobalPlan P e s.plan).ok = true
      · have hoob := transformGlobalPlan_ok_oob P e s.plan htf
        simp only [cycleMid, hinit, hpose, htf, if_true] at hobs
        simp only [computeVelocityCommands, hinit, hpose, htf, if_true, hoob]
        cases hlast : (if P.prune_plan then
            (prunePlan global_pose.x global_pose.y (transformGlobalPlan P e s.plan).plan
              s.plan).1
          else (transformGlobalPlan P e s.plan).plan).getLast? with
        | none => rw [hlast] at hobs; simp at hobs
        | some goal_point =>
          rw [hlast] at hobs
          simp only [Option.some.injEq, Prod.mk.injEq] at hobs
          obtain ⟨h1, h2, h3⟩ := hobs
          subst h1; subst h2; subst h3
          rfl
      · simp [cycleMid, hinit, hpose, htf] at hobs
  · simp [cycleMid, hinit] at hobs

theorem cycleMid_state_fields (P : Params) (e : Env) (s : Ctrl) (gp g : PoseQ) (s1 : Ctrl)
    (hobs : cycleMid P e s = some (gp, g, s1)) :
    s1.initialized = s.initialized ∧ s1.rotating_to_goal = s.rotating_to_goal
    ∧ s1.odomVx = s.odomVx ∧ s1.odomVy = s.odomVy ∧ s1.odomVth = s.odomVth := by
  by_cases hinit : s.initialized = true
  · cases hpose : e.robotPose with
    | none => simp [cycleMid, hinit, hpose] at hobs
    | some global_pose =>
      by_cases htf : (transformGlobalPlan P e s.plan).ok = true
      · simp only [cycleMid, hinit, hpose, htf, if_true] at hobs
        cases hlast : (if P.prune_plan then
            (prunePlan global_pose.x global_pose.y (transformGlobalPlan P e s.plan).plan
              s.plan).1
          else (transformGlobalPlan P e s.plan).plan).getLast? with
        | none => rw [hlast] at hobs; simp at hobs
        | some goal_point =>
          rw [hlast] at hobs
          simp only [Option.some.injEq, Prod.mk.injEq] at hobs
          obtain ⟨_, _, h3⟩ := hobs
          subst h3
          by_cases hp : P.prune_plan <;> simp [hp, hinit]
      · simp [cycleMid, hinit, hpose, htf] at hobs
  · simp [cycleMid, hinit] at hobs

theorem stopped_eq_of_odom (P : Params) (s1 s : Ctrl) (hx : s1.odomVx = s.odomVx)
    (hy : s1.odomVy = s.odomVy) (hth : s1.odomVth = s.odomVth) :
    stopped P s1 = stopped P s := by
  simp [stopped, hx, hy, hth]

/-- Claim C2 (behaviour at the failing input): a cycle on an initialized
planner whose retained plan is empty returns false (NO_COMMAND), leaves the
controller state and the caller's command untouched, and performs the
out-of-bounds `global_plan_[0]` access of line 392 before the zero-length
check. -/
theorem empty_plan_cycle (P : Params) (e : Env) (s : Ctrl) (cmd0 : Twist) (gp : PoseQ)
    (hinit : s.initialized = true) (hplan : s.plan = []) (hpose : e.robotPose = some gp) :
    computeVelocityCommands P e s cmd0 = ⟨false, cmd0, s, true⟩ := by
  simp [computeVelocityCommands, transformGlobalPlan, hinit, hplan, hpose]

/-- Parameters for the concrete cycle evaluations: the `initialize` defaults
with a 200×200-cell, 5 cm resolution costmap (pruning window 5 m) and
`prune_plan` disabled. -/
def cycleP : Params :=
  ⟨false, 1/20, 1/10, 5/2, 5/2, 16/5, 1, -1, 2/5, 1/100, 1/100, 200, 200, 1/20⟩

/-- Square-root oracle for the concrete evaluations; it agrees with the real
square root at every argument where a branch decision depends on it (0 and
4). -/
def sqrtc : ℚ → ℚ := fun q => if q = 0 then 0 else if q = 4 then 2 else 1

/-- Angular-difference oracle `b − a`; it equals
`angles::shortest_angular_distance a b` whenever `b − a` lies in `(−π, π]`,
which holds at all evaluated arguments. -/
def sadc : ℚ → ℚ → ℚ := fun a b => b - a

/-- A two-point plan at the origin of the global frame (the duplicated head is
consumed by the windowing scan of `transformGlobalPlan`). -/
def originPlan : List PoseQ := [⟨0, 0, 0⟩, ⟨0, 0, 0⟩]

/-- Witness for C2: concrete initialized state with an empty retained plan. -/
theorem empty_plan_cycle_wit :
    computeVelocityCommands cycleP
        ⟨some ⟨0, 0, 1⟩, true, id, 0, 0, sadc, sqrtc, fun _ _ _ _ _ _ _ _ _ => false,
          ⟨0, 0, 0⟩, 0⟩
        ⟨true, false, 0, 0, 0, []⟩ ⟨7, 7, 7⟩ =
      ⟨false, ⟨7, 7, 7⟩, ⟨true, false, 0, 0, 0, []⟩, true⟩ := by
  rw [empty_plan_cycle cycleP
    ⟨some ⟨0, 0, 1⟩, true, id, 0, 0, sadc, sqrtc, fun _ _ _ _ _ _ _ _ _ => false,
      ⟨0, 0, 0⟩, 0⟩
    ⟨true, false, 0, 0, 0, []⟩ ⟨7, 7, 7⟩ ⟨0, 0, 1⟩ rfl rfl rfl]

/-- Claim C10: a cycle that reaches trajectory scoring (robot pose available,
plan transformed, robot outside the xy goal tolerance) with a negative best
cost returns false, but the caller's `cmd_vel` has already received the
`findBestPath` drive velocities and is not reset to zero. -/
theorem infeasible_best_path_cmd (P : Params) (e : Env) (s : Ctrl) (cmd0 : Twist)
    (gp g : PoseQ) (s1 : Ctrl) (hobs : cycleMid P e s = some (gp, g, s1))
    (hpos : goalPositionReached P e.sqrtFn gp g.x g.y = false)
    (hcost : e.bestCost < 0) :
    (computeVelocityCommands P e s cmd0).ok = false
    ∧ (computeVelocityCommands P e s cmd0).cmd =
      ⟨e.driveCmds.x, e.driveCmds.y, e.driveCmds.th⟩ := by
  rw [cvc_eq_afterGoalCheck P e s cmd0 gp g s1 hobs]
  simp [cvcAfterGoalCheck, hpos, hcost]

/-- Environment of a cycle whose robot is 2 m from the plan end (outside the
xy tolerance, inside the costmap window) and whose `findBestPath` outcome is
infeasible (cost −1) with drive commands `(1/2, 0, 1/4)`. -/
def c10Env : Env :=
  ⟨some ⟨2, 0, 1⟩, true, id, 2, 0, sadc, sqrtc, fun _ _ _ _ _ _ _ _ _ => true,
    ⟨1/2, 0, 1/4⟩, -1⟩

/-- Witness for C10 at the concrete environment `c10Env`. -/
theorem infeasible_best_path_cmd_wit :
    (computeVelocityCommands cycleP c10Env ⟨true, false, 0, 0, 0, originPlan⟩
        ⟨0, 0, 0⟩).ok = false
    ∧ (computeVelocityCommands cycleP c10Env ⟨true, false, 0, 0, 0, originPlan⟩
        ⟨0, 0, 0⟩).cmd = ⟨1/2, 0, 1/4⟩ := by
  have h := infeasible_best_path_cmd cycleP c10Env ⟨true, false, 0, 0, 0, originPlan⟩
    ⟨0, 0, 0⟩ ⟨2, 0, 1⟩ ⟨0, 0, 0⟩ ⟨true, false, 0, 0, 0, originPlan⟩
    (by norm_num [cycleMid, transformGlobalPlan, tgpSkip, tgpTake, sqThreshOf,
      distThresholdOf, dblMax, sqDistTo, cycleP, c10Env, originPlan])
    (by norm_num [goalPositionReached, distance, sqrtc, cycleP, c10Env])
    (by norm_num [c10Env])
  exact ⟨h.1, by rw [h.2]; norm_num [c10Env]⟩

/-- Claim C1 (amended): when a cycle observes the robot within the xy goal
tolerance of the last transformed plan pose but outside the yaw tolerance, it
issues a deceleration action (when not yet rotating and not stopped) or a
rotate-to-goal action (otherwise, also setting `rotating_to_goal`), and it
returns the success flag of that action: true when the trajectory check
accepted the sample, false (NO_COMMAND, with the zeroed command the action
left) when the check deemed it infeasible. -/
theorem goal_branch_returns_action_result (P : Params) (e : Env) (s : Ctrl) (cmd0 : Twist)
    (gp g : PoseQ) (s1 : Ctrl) (hobs : cycleMid P e s = some (gp, g, s1))
    (hpos : goalPositionReached P e.sqrtFn gp g.x g.y = true)
    (horient : goalOrientationReached P e.sad gp g.th = false) :
    (s.rotating_to_goal = false → stopped P s = false →
      computeVelocityCommands P e s cmd0 =
        ⟨(stopWithAccLimits P e.check gp ⟨s.odomVx, s.odomVy, s.odomVth⟩).ok,
         (stopWithAccLimits P e.check gp ⟨s.odomVx, s.odomVy, s.odomVth⟩).cmd, s1, false⟩)
    ∧ (s.rotating_to_goal = true ∨ stopped P s = true →
      computeVelocityCommands P e s cmd0 =
        ⟨(rotateToGoal P e.sqrtFn e.sad e.check gp ⟨s.odomVx, s.odomVy, s.odomVth⟩ g.th).ok,
         (rotateToGoal P e.sqrtFn e.sad e.check gp ⟨s.odomVx, s.odomVy, s.odomVth⟩ g.th).cmd,
         { s1 with rotating_to_goal := true }, false⟩) := by
  obtain ⟨_, hrot, hvx, hvy, hvth⟩ := cycleMid_state_fields P e s gp g s1 hobs
  have hst := stopped_eq_of_odom P s1 s hvx hvy hvth
  rw [cvc_eq_afterGoalCheck P e s cmd0 gp g s1 hobs]
  constructor
  · intro hflag hstop
    simp only [cvcAfterGoalCheck, hpos, horient, hst, hrot, hflag, hstop, hvx, hvy, hvth,
      Bool.not_false, Bool.and_self, if_true, if_false, Bool.false_eq_true]
    cases hok : (stopWithAccLimits P e.check gp ⟨s.odomVx, s.odomVy, s.odomVth⟩).ok <;>
      simp [hok]
  · intro hor
    have hcond : (!s1.rotating_to_goal && !stopped P s1) = false := by
      rw [hrot, hst]
      rcases hor with h1 | h1 <;> simp [h1]
    simp only [cvcAfterGoalCheck, hpos, horient, hcond, hvx, hvy, hvth, if_true, if_false,
      Bool.false_eq_true]
    cases hok : (rotateToGoal P e.sqrtFn e.sad e.check gp ⟨s.odomVx, s.odomVy, s.odomVth⟩
        g.th).ok <;> simp [hok]

/-- Environment of a cycle whose robot sits exactly on the plan end with yaw
off by 1 rad, and whose trajectory check rejects every sample. -/
def c1Env : Env :=
  ⟨some ⟨0, 0, 1⟩, true, id, 0, 0, sadc, sqrtc, fun _ _ _ _ _ _ _ _ _ => false,
    ⟨0, 0, 0⟩, 0⟩

/-- Counterexample to claim C1 as stated: a cycle that observes the robot
within the xy tolerance of the last transformed plan pose (distance 0) but
outside the yaw tolerance (angular difference −1 rad), stopped, with the
rotate sample deemed infeasible by the trajectory check, returns false
(NO_COMMAND) — not unconditionally true. -/
theorem goal_branch_infeasible_returns_false :
    goalPositionReached cycleP sqrtc ⟨0, 0, 1⟩ 0 0 = true
    ∧ goalOrientationReached cycleP sadc ⟨0, 0, 1⟩ 0 = false
    ∧ (computeVelocityCommands cycleP c1Env ⟨true, false, 0, 0, 0, originPlan⟩
        ⟨0, 0, 0⟩).ok = false := by
  refine ⟨by norm_num [goalPositionReached, distance, sqrtc, cycleP],
    by norm_num [goalOrientationReached, sadc, cycleP], ?_⟩
  norm_num [computeVelocityCommands, transformGlobalPlan, tgpSkip, tgpTake, sqThreshOf,
    distThresholdOf, dblMax, sqDistTo, cvcAfterGoalCheck, goalPositionReached,
    goalOrientationReached, distance, stopped, rotateToGoal, cycleP, c1Env, originPlan,
    sqrtc, sadc]

/-- Witness for the amended C1: the same observation with a trajectory check
that accepts the sample; the cycle returns the rotate action's success and its
command, and sets the rotating flag. -/
theorem goal_branch_returns_action_result_wit :
    computeVelocityCommands cycleP
        ⟨some ⟨0, 0, 1⟩, true, id, 0, 0, sadc, sqrtc, fun _ _ _ _ _ _ _ _ _ => true,
          ⟨0, 0, 0⟩, 0⟩
        ⟨true, false, 0, 0, 0, originPlan⟩ ⟨0, 0, 0⟩ =
      ⟨(rotateToGoal cycleP sqrtc sadc (fun _ _ _ _ _ _ _ _ _ => true) ⟨0, 0, 1⟩
          ⟨0, 0, 0⟩ 0).ok,
       (rotateToGoal cycleP sqrtc sadc (fun _ _ _ _ _ _ _ _ _ => true) ⟨0, 0, 1⟩
          ⟨0, 0, 0⟩ 0).cmd,
       ⟨true, true, 0, 0, 0, originPlan⟩, false⟩ := by
  have h := goal_branch_returns_action_result cycleP
    ⟨some ⟨0, 0, 1⟩, true, id, 0, 0, sadc, sqrtc, fun _ _ _ _ _ _ _ _ _ => true,
      ⟨0, 0, 0⟩, 0⟩
    ⟨true, false, 0, 0, 0, originPlan⟩ ⟨0, 0, 0⟩ ⟨0, 0, 1⟩ ⟨0, 0, 0⟩
    ⟨true, false, 0, 0, 0, originPlan⟩
    (by norm_num [cycleMid, transformGlobalPlan, tgpSkip, tgpTake, sqThreshOf,
      distThresholdOf, dblMax, sqDistTo, cycleP, originPlan])
    (by norm_num [goalPositionReached, distance, sqrtc, cycleP])
    (by norm_num [goalOrientationReached, sadc, cycleP])
  have h2 := h.2 (Or.inr (by norm_num [stopped, cycleP]))
  rw [h2]

/-- Claim C5 (amended): per cycle, the `rotating_to_goal` flag is updated as
follows. A cycle that observes the robot outside the xy tolerance leaves the
flag unchanged (it may remain true from an earlier rotate phase); a cycle that
observes both tolerances met clears it; a cycle that observes the robot inside
the xy tolerance but outside the yaw tolerance sets it to
(previous flag ∨ stopped). -/
theorem rotating_to_goal_step (P : Params) (e : Env) (s : Ctrl) (cmd0 : Twist)
    (gp g : PoseQ) (s1 : Ctrl) (hobs : cycleMid P e s = some (gp, g, s1)) :
    (goalPositionReached P e.sqrtFn gp g.x g.y = false →
      (computeVelocityCommands P e s cmd0).state.rotating_to_goal = s.rotating_to_goal)
    ∧ (goalPositionReached P e.sqrtFn gp g.x g.y = true →
        goalOrientationReached P e.sad gp g.th = true →
      (computeVelocityCommands P e s cmd0).state.rotating_to_goal = false)
    ∧ (goalPositionReached P e.sqrtFn gp g.x g.y = true →
        goalOrientationReached P e.sad gp g.th = false →
      (computeVelocityCommands P e s cmd0).state.rotating_to_goal =
        (s.rotating_to_goal || stopped P s)) := by
  obtain ⟨_, hrot, hvx, hvy, hvth⟩ := cycleMid_state_fields P e s gp g s1 hobs
  have hst := stopped_eq_of_odom P s1 s hvx hvy hvth
  rw [cvc_eq_afterGoalCheck P e s cmd0 gp g s1 hobs]
  refine ⟨?_, ?_, ?_⟩
  · intro hpos
    simp only [cvcAfterGoalCheck, hpos, Bool.false_eq_true, if_false]
    by_cases hc : e.bestCost < 0 <;> simp [hc, hrot]
  · intro hpos hor
    simp only [cvcAfterGoalCheck, hpos, hor, if_true]
  · intro hpos hor
    simp only [cvcAfterGoalCheck, hpos, hor, if_true, Bool.false_eq_true, if_false]
    have key : (s.rotating_to_goal || stopped P s) =
        (!(!s1.rotating_to_goal && !stopped P s1)) := by
      rw [← hrot, ← hst]
      cases hx : s1.rotating_to_goal <;> cases hy : stopped P s1 <;> simp
    rw [key]
    by_cases hcond : (!s1.rotating_to_goal && !stopped P s1) = true
    · have hf1 : s1.rotating_to_goal = false := by
        cases hh : s1.rotating_to_goal <;> simp_all
      simp only [hcond, if_true, Bool.not_true]
      cases hok : (stopWithAccLimits P e.check gp
          ⟨s1.odomVx, s1.odomVy, s1.odomVth⟩).ok <;> simp [hok, hf1]
    · have hcf : (!s1.rotating_to_goal && !stopped P s1) = false := by
        cases hh : (!s1.rotating_to_goal && !stopped P s1) <;> simp_all
      simp only [hcf, Bool.not_false, Bool.false_eq_true, if_false]
      cases hok : (rotateToGoal P e.sqrtFn e.sad e.check gp
          ⟨s1.odomVx, s1.odomVy, s1.odomVth⟩ g.th).ok <;> simp [hok]

/-- Environment of a cycle at the goal position with yaw off by 1 rad and a
trajectory check that accepts every sample. -/
def c5Env1 : Env :=
  ⟨some ⟨0, 0, 1⟩, true, id, 0, 0, sadc, sqrtc, fun _ _ _ _ _ _ _ _ _ => true,
    ⟨0, 0, 0⟩, 0⟩

/-- Environment of a follow-up cycle whose robot has been displaced 2 m from
the plan end (outside the xy tolerance, inside the costmap window). -/
def c5Env2 : Env :=
  ⟨some ⟨2, 0, 1⟩, true, id, 2, 0, sadc, sqrtc, fun _ _ _ _ _ _ _ _ _ => true,
    ⟨0, 0, 0⟩, 0⟩

/-- Counterexample to claim C5 as stated: starting from the freshly
initialized state, a first cycle at the goal position with yaw off sets
`rotating_to_goal`; a second cycle then observes the robot 2 m away — outside
the xy tolerance — yet the flag remains true in the reachable post-state,
refuting the claimed invariant that such a cycle leaves the flag false. -/
theorem rotating_to_goal_outside_xy :
    ((computeVelocityCommands cycleP c5Env2
        (computeVelocityCommands cycleP c5Env1
          ⟨true, false, 0, 0, 0, originPlan⟩ ⟨0, 0, 0⟩).state
        ⟨0, 0, 0⟩).state.rotating_to_goal = true)
    ∧ goalPositionReached cycleP sqrtc ⟨2, 0, 1⟩ 0 0 = false := by
  constructor
  · norm_num [computeVelocityCommands, transformGlobalPlan, tgpSkip, tgpTake, sqThreshOf,
      distThresholdOf, dblMax, sqDistTo, cvcAfterGoalCheck, goalPositionReached,
      goalOrientationReached, distance, stopped, rotateToGoal, cycleP, c5Env1, c5Env2,
      originPlan, sqrtc, sadc, qsign]
  · norm_num [goalPositionReached, distance, sqrtc, cycleP]

/-- Witness for the amended C5: the second cycle above, started from a state
with the flag already true, leaves the flag unchanged (true). -/
theorem rotating_to_goal_step_wit :
    (computeVelocityCommands cycleP c5Env2 ⟨true, true, 0, 0, 0, originPlan⟩
      ⟨0, 0, 0⟩).state.rotating_to_goal = true := by
  have h := rotating_to_goal_step cycleP c5Env2 ⟨true, true, 0, 0, 0, originPlan⟩
    ⟨0, 0, 0⟩ ⟨2, 0, 1⟩ ⟨0, 0, 0⟩ ⟨true, true, 0, 0, 0, originPlan⟩
    (by norm_num [cycleMid, transformGlobalPlan, tgpSkip, tgpTake, sqThreshOf,
      distThresholdOf, dblMax, sqDistTo, cycleP, c5Env2, originPlan])
  rw [h.1 (by norm_num [goalPositionReached, distance, sqrtc, cycleP, c5Env2])]

theorem tgpSkip_stop (rx ry thresh sq : ℚ) (l : List PoseQ) (h : ¬ thresh < sq) :
    tgpSkip rx ry thresh sq l = (sq, l) := by
  cases l <;> simp [tgpSkip, h]

theorem tgpSkip_snd (rx ry thresh : ℚ) :
    ∀ (plan : List PoseQ) (sq : ℚ), thresh < sq →
      (tgpSkip rx ry thresh sq plan).2 =
        (plan.dropWhile fun p => decide (thresh < sqDistTo rx ry p)).tail := by
  intro plan
  induction plan with
  | nil => intro sq hsq; simp [tgpSkip]
  | cons p rest ih =>
    intro sq hsq
    rw [show tgpSkip rx ry thresh sq (p :: rest) =
        tgpSkip rx ry thresh (sqDistTo rx ry p) rest from by simp [tgpSkip, hsq]]
    by_cases hp : thresh < sqDistTo rx ry p
    · have hfar : (decide (thresh < sqDistTo rx ry p)) = true := decide_eq_true hp
      rw [ih (sqDistTo rx ry p) hp]
      have hdw : List.dropWhile (fun v => decide (thresh < sqDistTo rx ry v)) (p :: rest) =
          List.dropWhile (fun v => decide (thresh < sqDistTo rx ry v)) rest :=
        List.dropWhile_cons_of_pos hfar
      rw [hdw]
    · have hfar : ¬ ((decide (thresh < sqDistTo rx ry p)) = true) := by
        simpa using hp
      have hdw : List.dropWhile (fun v => decide (thresh < sqDistTo rx ry v)) (p :: rest) =
          p :: rest := List.dropWhile_cons_of_neg hfar
      rw [tgpSkip_stop rx ry thresh (sqDistTo rx ry p) rest hp, hdw]
      rfl

theorem tgpSkip_fst (rx ry thresh : ℚ) :
    ∀ (plan : List PoseQ) (sq : ℚ), thresh < sq →
      ∀ f B, (plan.dropWhile fun p => decide (thresh < sqDistTo rx ry p)) = f :: B →
        (tgpSkip rx ry thresh sq plan).1 = sqDistTo rx ry f := by
  intro plan
  induction plan with
  | nil => intro sq hsq f B hd; simp at hd
  | cons p rest ih =>
    intro sq hsq f B hd
    rw [show tgpSkip rx ry thresh sq (p :: rest) =
        tgpSkip rx ry thresh (sqDistTo rx ry p) rest from by simp [tgpSkip, hsq]]
    by_cases hp : thresh < sqDistTo rx ry p
    · have hfar : (decide (thresh < sqDistTo rx ry p)) = true := decide_eq_true hp
      have hdw : List.dropWhile (fun v => decide (thresh < sqDistTo rx ry v)) (p :: rest) =
          List.dropWhile (fun v => decide (thresh < sqDistTo rx ry v)) rest :=
        List.dropWhile_cons_of_pos hfar
      rw [hdw] at hd
      exact ih (sqDistTo rx ry p) hp f B hd
    · have hfar : ¬ ((decide (thresh < sqDistTo rx ry p)) = true) := by
        simpa using hp
      have hdw : List.dropWhile (fun v => decide (thresh < sqDistTo rx ry v)) (p :: rest) =
          p :: rest := List.dropWhile_cons_of_neg hfar
      rw [hdw] at hd
      rw [tgpSkip_stop rx ry thresh (sqDistTo rx ry p) rest hp]
      simp only [List.cons.injEq] at hd
      rw [hd.1]

theorem tgpTake_eq (rx ry thresh : ℚ) (T : PoseQ → PoseQ) :
    ∀ (B : List PoseQ) (sq : ℚ),
      tgpTake rx ry thresh T sq B =
        if sq < thresh then
          (B.take ((B.takeWhile fun p => decide (sqDistTo rx ry p < thresh)).length + 1)).map T
        else [] := by
  intro B
  induction B with
  | nil => intro sq; by_cases hsq : sq < thresh <;> simp [tgpTake, hsq]
  | cons p rest ih =>
    intro sq
    by_cases hsq : sq < thresh
    · rw [show tgpTake rx ry thresh T sq (p :: rest) =
          T p :: tgpTake rx ry thresh T (sqDistTo rx ry p) rest from by simp [tgpTake, hsq],
        ih (sqDistTo rx ry p)]
      by_cases hp : sqDistTo rx ry p < thresh
      · have hnear : (decide (sqDistTo rx ry p < thresh)) = true := decide_eq_true hp
        have htw : List.takeWhile (fun v => decide (sqDistTo rx ry v < thresh)) (p :: rest) =
            p :: List.takeWhile (fun v => decide (sqDistTo rx ry v < thresh)) rest :=
          List.takeWhile_cons_of_pos hnear
        simp [hsq, hp, htw, List.take_succ_cons]
      · have hnear : ¬ ((decide (sqDistTo rx ry p < thresh)) = true) := by
          simpa using hp
        have htw : List.takeWhile (fun v => decide (sqDistTo rx ry v < thresh)) (p :: rest) =
            [] := List.takeWhile_cons_of_neg hnear
        simp [hsq, hp, htw]
    · simp [tgpTake, hsq]

/-- Spec-side characterization of the windowing scan of `transformGlobalPlan`:
drop the maximal prefix of points strictly outside the window, drop the first
point at or inside the window boundary as well, then keep the contiguous run
of points strictly inside the window plus the single point that terminates the
run (when one exists), all transformed by `T`; nothing is kept when the first
non-far point sits exactly on the window boundary. -/
def tgpSpec (P : Params) (e : Env) (plan : List PoseQ) : List PoseQ :=
  match plan.dropWhile fun p =>
      decide (sqThreshOf P < sqDistTo e.robotPlanX e.robotPlanY p) with
  | [] => []
  | f :: B =>
    if sqDistTo e.robotPlanX e.robotPlanY f < sqThreshOf P then
      (B.take ((B.takeWhile fun p =>
          decide (sqDistTo e.robotPlanX e.robotPlanY p < sqThreshOf P)).length + 1)).map e.T
    else []

/-- Claim C4 (amended): on a nonempty plan with a successful tf lookup and a
window threshold below `DBL_MAX`, the transformed plan produced by
`transformGlobalPlan` is exactly `tgpSpec`: the maximal prefix of points
strictly outside the window is dropped and the first point at or inside the
window boundary is dropped as well; then, if that dropped point was strictly
inside the window, the contiguous run of following points strictly within the
window is retained together with the single point terminating that run (which
may lie at or beyond the window boundary), each point transformed into the
global frame; if instead that dropped point sat exactly on the window
boundary, nothing is retained. The output is therefore not the set of all
plan points within the window: a retained point may lie outside the window,
and in-window points may be dropped. -/
theorem transformGlobalPlan_characterization (P : Params) (e : Env) (plan : List PoseQ)
    (hne : plan ≠ []) (htf : e.tfOk = true) (hmax : sqThreshOf P < dblMax) :
    (transformGlobalPlan P e plan).plan = tgpSpec P e plan := by
  have hne' : plan.isEmpty = false := by cases plan <;> simp_all
  simp only [transformGlobalPlan, tgpSpec, hne', htf, Bool.false_eq_true, if_false, if_true]
  cases hd : plan.dropWhile fun p =>
      decide (sqThreshOf P < sqDistTo e.robotPlanX e.robotPlanY p) with
  | nil =>
    have h2 := tgpSkip_snd e.robotPlanX e.robotPlanY (sqThreshOf P) plan dblMax hmax
    rw [hd] at h2
    rw [h2]
    rfl
  | cons f B =>
    have h2 := tgpSkip_snd e.robotPlanX e.robotPlanY (sqThreshOf P) plan dblMax hmax
    rw [hd] at h2
    have h1 := tgpSkip_fst e.robotPlanX e.robotPlanY (sqThreshOf P) plan dblMax hmax f B hd
    rw [h2, h1, List.tail_cons,
      tgpTake_eq e.robotPlanX e.robotPlanY (sqThreshOf P) e.T B
        (sqDistTo e.robotPlanX e.robotPlanY f)]

/-- Parameters with a 4×4-cell, 1 m resolution costmap: window 2 m, squared
threshold 4. -/
def c4Params : Params :=
  ⟨false, 1/20, 1/10, 5/2, 5/2, 16/5, 1, -1, 2/5, 1/100, 1/100, 4, 4, 1⟩

/-- Environment with the robot at the plan-frame origin and the identity
plan-to-global transform. -/
def c4Env : Env :=
  ⟨some ⟨0, 0, 0⟩, true, id, 0, 0, sadc, sqrtc, fun _ _ _ _ _ _ _ _ _ => true,
    ⟨0, 0, 0⟩, 0⟩

/-- A plan with one far point, two in-window points, and a final far point. -/
def c4Plan : List PoseQ := [⟨0, 3, 0⟩, ⟨0, 1, 0⟩, ⟨0, 1, 0⟩, ⟨0, 5, 0⟩]

/-- Counterexample to claim C4 as stated: with window 2 m (squared threshold
4) and the robot at the origin, the plan above yields the transformed plan
`[(0,1), (0,5)]` — not the within-window points `[(0,1), (0,1)]` — and the
retained point `(0,5)` lies at squared distance 25, outside the window. -/
theorem transformGlobalPlan_window_cx :
    (transformGlobalPlan c4Params c4Env c4Plan).plan = [⟨0, 1, 0⟩, ⟨0, 5, 0⟩]
    ∧ (transformGlobalPlan c4Params c4Env c4Plan).plan ≠
      (c4Plan.filter fun p => decide (sqDistTo 0 0 p ≤ sqThreshOf c4Params)).map c4Env.T
    ∧ sqThreshOf c4Params < sqDistTo 0 0 ⟨0, 5, 0⟩ := by
  refine ⟨?_, ?_, ?_⟩
  · norm_num [transformGlobalPlan, tgpSkip, tgpTake, sqThreshOf, distThresholdOf, dblMax,
      sqDistTo, c4Params, c4Env, c4Plan]
  · norm_num [transformGlobalPlan, tgpSkip, tgpTake, sqThreshOf, distThresholdOf, dblMax,
      sqDistTo, c4Params, c4Env, c4Plan, List.filter]
  · norm_num [sqThreshOf, distThresholdOf, sqDistTo, c4Params]

/-- Witness for the amended C4 at the concrete plan above. -/
theorem transformGlobalPlan_characterization_wit :
    (transformGlobalPlan c4Params c4Env c4Plan).plan = tgpSpec c4Params c4Env c4Plan :=
  transformGlobalPlan_characterization c4Params c4Env c4Plan
    (by simp [c4Plan]) (by simp [c4Env])
    (by norm_num [sqThreshOf, distThresholdOf, dblMax, c4Params])

end Nav
